import Mathlib

/-!
Verification of the django-cruder rendering/permission pipeline.

Shallow embedding of:
  * `CRUDView.has_crud_permission` (src/views.py)
  * `get_field_type` and the form-field rendering path
    (src/forms.py, src/cruder/frameworks/bootstrap.py)
  * the search / pagination / action-button steps of `render_list`
    and the value formatting of `render_list` and `CRUDView.detail_view`
    (src/cruder/templates.py, src/views.py)

Machine integers do not occur; Python ints are modelled as `Nat`/`Int`.
Python truthiness is modelled explicitly where the source relies on it.
-/

namespace Cruder

/-! ## Permission gate: `CRUDView.has_crud_permission` (src/views.py, lines 34-63)

A Django user is reduced to the two pieces of data the method reads:
the names of the user's groups and the superuser flag.  The
`permissions` attribute is `None` or a dict mapping an operation letter
to a list of role names; Python's `if not self.permissions` treats both
`None` and the empty dict as falsy. -/

structure DjUser where
  groups : List String
  is_superuser : Bool
deriving DecidableEq

/-- The Python dict is modelled as an association list; `none` is Python `None`. -/
def PermissionMap := Option (List (String × List String))

/-- `d.get(op, [])` on the association list. -/
def perms_get (perms : List (String × List String)) (operation : String) : List String :=
  ((perms.find? (fun p => p.1 == operation)).map (fun p => p.2)).getD []

/-- Python truthiness of `self.permissions`: `None` and `{}` are falsy. -/
def py_falsy_dict : Option (List (String × List String)) → Bool
  | none => true
  | some l => l.isEmpty

/-- `CRUDView.has_crud_permission`, translated line by line from src/views.py. -/
def has_crud_permission (readonly_mode : Bool)
    (permissions : Option (List (String × List String)))
    (user : DjUser) (operation : String) : Bool :=
  if readonly_mode && ["C", "U", "D"].contains operation then
    false
  else if py_falsy_dict permissions then
    true
  else
    let required_roles := perms_get (permissions.getD []) operation
    if required_roles.isEmpty then
      true
    else if user.is_superuser then
      true
    else
      required_roles.any (fun role => user.groups.contains role)

/-! ## Field-type resolution: `get_field_type` (src/forms.py, lines 121-150)

The Django model-field classes that appear in the source's
`field_mapping` dict, plus a constructor for any field class not
appearing there.  `isinstance` needs the subclass relations among these
classes, taken from Django itself:
`EmailField`/`URLField` subclass `CharField`,
`PositiveIntegerField` subclasses `IntegerField`,
`DateTimeField` subclasses `DateField`,
`ImageField` subclasses `FileField`. -/

inductive FieldClass
  | CharField | TextField | EmailField | URLField
  | IntegerField | PositiveIntegerField | FloatField | DecimalField
  | BooleanField
  | DateField | DateTimeField | TimeField
  | FileField | ImageField
  | ForeignKey | ManyToManyField
  | OtherField
deriving DecidableEq, Fintype

/-- `isinstance(x, parent)` for an object of concrete class `c`:
reflexivity plus the Django subclass edges listed above. -/
def isinstance (c parent : FieldClass) : Bool :=
  c == parent ||
    match c, parent with
    | .EmailField, .CharField => true
    | .URLField, .CharField => true
    | .PositiveIntegerField, .IntegerField => true
    | .DateTimeField, .DateField => true
    | .ImageField, .FileField => true
    | _, _ => false

/-- A model field as `get_field_type` and the form renderer see it:
its concrete class, its `choices` attribute (empty list for Python's
falsy no-choices case) and its name. -/
structure ModelField where
  cls : FieldClass
  choices : List (String × String)
  name : String
deriving DecidableEq

/-- The `field_mapping` dict of src/forms.py in its insertion order
(Python 3.7+ dicts iterate in insertion order). -/
def field_mapping : List (FieldClass × String) :=
  [ (.CharField, "text"),
    (.TextField, "textarea"),
    (.EmailField, "email"),
    (.URLField, "url"),
    (.IntegerField, "number"),
    (.PositiveIntegerField, "number"),
    (.FloatField, "number"),
    (.DecimalField, "number"),
    (.BooleanField, "checkbox"),
    (.DateField, "date"),
    (.DateTimeField, "datetime-local"),
    (.TimeField, "time"),
    (.FileField, "file"),
    (.ImageField, "file"),
    (.ForeignKey, "select"),
    (.ManyToManyField, "select") ]

/-- `get_field_type` from src/forms.py.  Every Django field object has a
`choices` attribute, so `hasattr(model_field, 'choices') and
model_field.choices` reduces to the choices list being non-empty. -/
def get_field_type (model_field : ModelField) : String :=
  if isinstance model_field.cls .BooleanField && !model_field.choices.isEmpty then
    "select"
  else
    match field_mapping.find? (fun p => isinstance model_field.cls p.1) with
    | some p => p.2
    | none => "text"

/-! ## Form field rendering: `render_form` (src/forms.py, lines 70-99) and
`BootstrapFramework.get_form_field_html` (src/cruder/frameworks/bootstrap.py)

Only the value flow that decides what the field's input control looks
like is modelled; the surrounding label/help-text markup carries no
claim.  A Python value reaching the renderer is a string, a bool or
`None`. -/

inductive PyValue
  | pyStr (s : String)
  | pyBool (b : Bool)
  | pyNone
deriving DecidableEq

/-- Python `str(...)` on the three value shapes. -/
def py_str : PyValue → String
  | .pyStr s => s
  | .pyBool true => "True"
  | .pyBool false => "False"
  | .pyNone => "None"

/-- Python truthiness on the three value shapes. -/
def py_truthy : PyValue → Bool
  | .pyStr s => !(s == "")
  | .pyBool b => b
  | .pyNone => false

/-- The value `render_form` puts on the ad-hoc field object
(src/forms.py, lines 76-83): empty string without an instance, the
instance's attribute otherwise, with `None` replaced by the empty
string. -/
def render_form_value (instance_value : Option PyValue) : PyValue :=
  match instance_value with
  | none => .pyStr ""
  | some v => if v == .pyNone then .pyStr "" else v

/-- The selected-flags of the two concrete options of the
`active_client` select. -/
structure TriOptions where
  yes_selected : Bool
  no_selected : Bool
deriving DecidableEq

/-- The shape of the input control emitted by
`BootstrapFramework.get_form_field_html`. -/
inductive FieldHtml
  | textareaTag (value : String)
  | selectActiveClient (opts : TriOptions)
  | selectGeneric
  | checkboxTag (checked : Bool)
  | inputTag (input_type : String) (value : String)
deriving DecidableEq

/-- `BootstrapFramework.get_form_field_html`
(src/cruder/frameworks/bootstrap.py, lines 49-102).  Note line 53 of the
source: `field_value = getattr(field, 'value', '') or ''` replaces every
falsy value (including the boolean `False`) by the empty string before
the `selected` comparisons run. -/
def get_form_field_html (field_name : String) (field_type : String)
    (value : PyValue) : FieldHtml :=
  let field_value := if py_truthy value then value else .pyStr ""
  if field_type == "textarea" then
    .textareaTag (py_str field_value)
  else if field_type == "select" then
    if field_name == "active_client" then
      .selectActiveClient
        ⟨py_str field_value == "True", py_str field_value == "False"⟩
    else
      .selectGeneric
  else if field_type == "checkbox" then
    .checkboxTag (py_truthy field_value)
  else
    .inputTag field_type (py_str field_value)

/-- One field's trip through `render_form`: resolve the input category
with `get_field_type`, extract the display value, hand both to the
framework renderer. -/
def render_form_field (f : ModelField) (instance_value : Option PyValue) : FieldHtml :=
  get_form_field_html f.name (get_field_type f) (render_form_value instance_value)

/-! ## Search filtering in `render_list` (src/cruder/templates.py, lines 40-46)

A record is reduced to its string-valued fields.  `icontains` is
Django's case-insensitive substring lookup. -/

structure SearchRec where
  fields : List (String × String)
deriving DecidableEq

/-- The value of field `f` on record `r` (the searched fields exist on
the model, so the default is never relevant for well-formed input). -/
def get_attr_str (r : SearchRec) (f : String) : String :=
  ((r.fields.find? (fun p => p.1 == f)).map (fun p => p.2)).getD ""

/-- Lower-casing, as Python's `str.lower` restricted to the character
map. -/
def py_lower (s : String) : String :=
  ⟨s.data.map Char.toLower⟩

/-- `needle` occurs as a contiguous sublist of `hay`. -/
def list_contains_sub (needle : List Char) : List Char → Bool
  | [] => needle.isEmpty
  | c :: t => needle.isPrefixOf (c :: t) || list_contains_sub needle t

/-- Django's `field__icontains=q` lookup: case-insensitive substring
test. -/
def icontains (value q : String) : Bool :=
  list_contains_sub (py_lower q).data (py_lower value).data

/-- The `q_objects` fold of src/cruder/templates.py lines 43-45:
starting from the empty `Q()` (the identity of `|`, modelled `none`),
OR in one `icontains` condition per search field. -/
def q_or_fold (search_fields : List String) (q : String) : Option (SearchRec → Bool) :=
  search_fields.foldl
    (fun acc f =>
      match acc with
      | none => some (fun r => icontains (get_attr_str r f) q)
      | some p => some (fun r => p r || icontains (get_attr_str r f) q))
    none

/-- `queryset.filter(q_objects)`: the empty `Q()` matches everything. -/
def filter_q (records : List SearchRec) : Option (SearchRec → Bool) → List SearchRec
  | none => records
  | some p => records.filter p

/-- The search step of `render_list`: filtering happens only when both
`search_fields` and `search_query` are truthy (line 41 of the source). -/
def apply_search (search_fields : List String) (search_query : String)
    (records : List SearchRec) : List SearchRec :=
  if search_fields ≠ [] ∧ search_query ≠ "" then
    filter_q records (q_or_fold search_fields search_query)
  else
    records

/-! ## Pagination (src/cruder/templates.py, lines 65-67)

`render_list` delegates to `django.core.paginator.Paginator` with its
default settings (`orphans=0`, `allow_empty_first_page=True`).  The
following definitions are translated from Django's `Paginator.num_pages`,
`Paginator.validate_number`, `Paginator.get_page` and `Paginator.page`.
The page number reaching `get_page` is modelled as an `Int`; the
`PageNotAnInteger` branch (non-numeric input, resolved to page 1) is
outside the integer model and noted where relevant. -/

/-- `Paginator.num_pages`: `ceil(max(1, count) / per_page)` for
`orphans=0`, `allow_empty_first_page=True`, written with Nat ceiling
division. -/
def num_pages (count per_page : Nat) : Nat :=
  (max 1 count + per_page - 1) / per_page

/-- `Paginator.validate_number` on an integer page number: numbers below
1 and numbers above `num_pages` raise `EmptyPage` (the
`number == 1 and allow_empty_first_page` escape of Django is kept even
though `num_pages` is never 0 here). -/
def validate_number (count per_page : Nat) (number : Int) : Except Unit Nat :=
  if number < 1 then
    .error ()
  else if number > (num_pages count per_page : Int) then
    if number == 1 then .ok 1 else .error ()
  else
    .ok number.toNat

/-- `Paginator.get_page`: an `EmptyPage` error is caught and replaced by
the number of the last page. -/
def get_page_number (count per_page : Nat) (number : Int) : Nat :=
  match validate_number count per_page number with
  | .ok n => n
  | .error _ => num_pages count per_page

/-- `Paginator.page(n).object_list`: the slice
`[(n-1)*per_page : (n-1)*per_page + per_page]` of the record list. -/
def page_object_list (records : List α) (per_page n : Nat) : List α :=
  (records.drop ((n - 1) * per_page)).take per_page

/-- The records shown by `render_list` for a requested page number. -/
def render_list_page (records : List α) (per_page : Nat) (number : Int) : List α :=
  page_object_list records per_page (get_page_number records.length per_page number)

/-! ## Per-row action buttons (src/cruder/templates.py, lines 98-115) -/

/-- The `permissions_context` dict built in `CRUDView.list_view`
(src/views.py, lines 126-131); all four keys are always present. -/
structure PermissionsContext where
  can_create : Bool
  can_read : Bool
  can_update : Bool
  can_delete : Bool
deriving DecidableEq

inductive ActionLink
  | viewLink
  | editLink
  | deleteLink
deriving DecidableEq

/-- `not permissions or permissions.get(key, True)`: a missing snapshot
allows everything. -/
def perm_allows (permissions : Option PermissionsContext)
    (key : PermissionsContext → Bool) : Bool :=
  match permissions with
  | none => true
  | some p => key p

/-- The `action_buttons` list built for one row. -/
def action_buttons (permissions : Option PermissionsContext) : List ActionLink :=
  (if perm_allows permissions (fun p => p.can_read) then [ActionLink.viewLink] else [])
    ++ (if perm_allows permissions (fun p => p.can_update) then [ActionLink.editLink] else [])
    ++ (if perm_allows permissions (fun p => p.can_delete) then [ActionLink.deleteLink] else [])

/-- The actions cell: a button group when any button was collected, else
the neutral "No actions available" placeholder (line 114). -/
inductive ActionsCell
  | buttonGroup (links : List ActionLink)
  | noActionsPlaceholder
deriving DecidableEq

def actions_cell (permissions : Option PermissionsContext) : ActionsCell :=
  let bs := action_buttons permissions
  if bs.isEmpty then .noActionsPlaceholder else .buttonGroup bs

/-! ## Value formatting (src/cruder/templates.py, lines 70-85 and
`CRUDView.detail_view`, src/views.py, lines 262-298)

A field value reaching either formatter is an object carrying
`strftime` (a date/datetime), a bool, `None`, or anything else
(stringified); a read may also raise, which the list renderer turns
into "-" and the detail renderer into skipping the field. -/

structure PyDateTime where
  year : Nat
  month : Nat
  day : Nat
  hour : Nat
  minute : Nat
deriving DecidableEq

def pad2 (n : Nat) : String :=
  if n < 10 then "0" ++ toString n else toString n

def pad4 (n : Nat) : String :=
  if n < 10 then "000" ++ toString n
  else if n < 100 then "00" ++ toString n
  else if n < 1000 then "0" ++ toString n
  else toString n

/-- `value.strftime('%Y-%m-%d %H:%M')`. -/
def strftime_ymd_hm (dt : PyDateTime) : String :=
  pad4 dt.year ++ "-" ++ pad2 dt.month ++ "-" ++ pad2 dt.day ++ " "
    ++ pad2 dt.hour ++ ":" ++ pad2 dt.minute

inductive FieldValue
  | vDateTime (dt : PyDateTime)
  | vBool (b : Bool)
  | vNone
  | vStr (s : String)
deriving DecidableEq

/-- The outcome of `getattr(obj, field_name)`: a value, or a raised
exception. -/
inductive FieldRead
  | ok (v : FieldValue)
  | raiseErr
deriving DecidableEq

/-- The formatting chain of `render_list` (templates.py lines 77-83):
`strftime` objects first, then bools, then `None`, else `str(value)`. -/
def format_list_value : FieldValue → String
  | .vDateTime dt => strftime_ymd_hm dt
  | .vBool b => if b then "Yes" else "No"
  | .vNone => "-"
  | .vStr s => s

/-- One list cell: a raised read is caught and rendered as "-"
(templates.py lines 84-85). -/
def list_cell : FieldRead → String
  | .ok v => format_list_value v
  | .raiseErr => "-"

/-- One list row over the shown fields. -/
def render_list_row (cells : List FieldRead) : List String :=
  cells.map list_cell

/-- The formatting chain of `CRUDView.detail_view` (views.py lines
276-281): identical to the list chain except `None` renders as
"Not set". -/
def format_detail_value : FieldValue → String
  | .vDateTime dt => strftime_ymd_hm dt
  | .vBool b => if b then "Yes" else "No"
  | .vNone => "Not set"
  | .vStr s => s

/-- The `fields_data` loop of `detail_view`: a raised read hits
`except: continue`, dropping the field from the output (views.py lines
288-289). -/
def detail_fields_data (flds : List (String × FieldRead)) : List (String × String) :=
  flds.filterMap (fun nr =>
    match nr.2 with
    | .ok v => some (nr.1, format_detail_value v)
    | .raiseErr => none)

/-! ## Theorems -/

/-- C1: with `readonly_mode` true, `has_crud_permission` denies the
create, update and delete operations for every user (superusers and
explicitly mapped roles included) and every permissions map, while the
read operation's decision is the same as with `readonly_mode` false. -/
theorem readonly_mode_blocks_mutations
    (perms : Option (List (String × List String))) (user : DjUser) :
    has_crud_permission true perms user "C" = false
      ∧ has_crud_permission true perms user "U" = false
      ∧ has_crud_permission true perms user "D" = false
      ∧ ∀ readonly_mode : Bool,
          has_crud_permission readonly_mode perms user "R"
            = has_crud_permission false perms user "R" := by
  refine ⟨rfl, rfl, rfl, fun readonly_mode => ?_⟩
  simp [has_crud_permission]

/-- C2: outside the read-only carve-out (readonly_mode is false), every
user — superuser or not, with or without roles — is allowed any
operation for which the permissions map is `None`, the empty dict, has
no entry, or has an empty role list (fail-open default). -/
theorem fail_open_without_required_roles
    (user : DjUser) (operation : String)
    (perms : Option (List (String × List String)))
    (h : perms = none ∨ perms = some []
          ∨ perms_get (perms.getD []) operation = []) :
    has_crud_permission false perms user operation = true := by
  rcases h with h | h | h
  · subst h; rfl
  · subst h; rfl
  · cases perms with
    | none => rfl
    | some m =>
        simp only [Option.getD] at h
        by_cases hm : m = []
        · subst hm; rfl
        · simp [has_crud_permission, py_falsy_dict, List.isEmpty_eq_true, hm, h]

/-- Witness for C2 at a concrete input: a user with no roles and no
superuser bit is allowed 'C' when no permissions map is configured. -/
theorem fail_open_without_required_roles_witness :
    ((none : Option (List (String × List String))) = none
        ∨ (none : Option (List (String × List String))) = some []
        ∨ perms_get ((none : Option (List (String × List String))).getD []) "C" = [])
      ∧ has_crud_permission false none ⟨[], false⟩ "C" = true :=
  ⟨Or.inl rfl, fail_open_without_required_roles ⟨[], false⟩ "C" none (Or.inl rfl)⟩

/-- `get_field_type` reads nothing of a field beyond its class and the
emptiness of its choices list. -/
theorem get_field_type_choices_congr (cls : FieldClass)
    (c1 c2 : List (String × String)) (n1 n2 : String)
    (h : c1.isEmpty = c2.isEmpty) :
    get_field_type ⟨cls, c1, n1⟩ = get_field_type ⟨cls, c2, n2⟩ := by
  simp only [get_field_type, h]

/-- C7: `get_field_type` is total and always lands in the closed
enumeration of input categories the spec names, and every field class
outside the mapping table falls back to "text". -/
theorem get_field_type_closed_enumeration :
    (∀ f : ModelField,
        get_field_type f ∈
          (["text", "textarea", "email", "url", "number", "checkbox",
            "date", "datetime", "time", "file", "select"] : List String))
      ∧ (∀ (choices : List (String × String)) (name : String),
          get_field_type ⟨.OtherField, choices, name⟩ = "text") := by
  constructor
  · rintro ⟨cls, choices, name⟩
    cases choices with
    | nil =>
        rw [get_field_type_choices_congr cls [] [] name "" rfl]
        revert cls; decide
    | cons a t =>
        rw [get_field_type_choices_congr cls (a :: t) [("", "")] name "" rfl]
        revert cls; decide
  · intro choices name
    cases choices <;> rfl

/-- C8: a boolean field carrying a non-empty choice set resolves to
"select" whatever its other attributes are. -/
theorem boolean_with_choices_resolves_select
    (choices : List (String × String)) (name : String)
    (h : choices ≠ []) :
    get_field_type ⟨.BooleanField, choices, name⟩ = "select" := by
  cases choices with
  | nil => exact absurd rfl h
  | cons a t => rfl

/-- Witness for C8 at a concrete input. -/
theorem boolean_with_choices_resolves_select_witness :
    ([(("True" : String), ("Yes" : String))] ≠ [])
      ∧ get_field_type ⟨.BooleanField, [("True", "Yes")], "active_client"⟩ = "select" :=
  ⟨by decide,
    boolean_with_choices_resolves_select [("True", "Yes")] "active_client" (by decide)⟩

/-- C10: the email and url entries of the mapping table are dead:
`EmailField` and `URLField` satisfy the earlier `CharField` isinstance
test, so both resolve to "text", and no field at all resolves to
"email" or "url". -/
theorem email_url_fields_resolve_to_text :
    (∀ f : ModelField, get_field_type f ≠ "email" ∧ get_field_type f ≠ "url")
      ∧ (∀ (choices : List (String × String)) (name : String),
          get_field_type ⟨.EmailField, choices, name⟩ = "text"
            ∧ get_field_type ⟨.URLField, choices, name⟩ = "text") := by
  constructor
  · rintro ⟨cls, choices, name⟩
    cases choices with
    | nil =>
        rw [get_field_type_choices_congr cls [] [] name "" rfl]
        revert cls; decide
    | cons a t =>
        rw [get_field_type_choices_congr cls (a :: t) [("", "")] name "" rfl]
        revert cls; decide
  · intro choices name
    cases choices <;> exact ⟨rfl, rfl⟩

/-- C5: with a permission snapshot supplied, each of the view/edit/
delete links of a rendered row is present exactly when its flag
(`can_read`/`can_update`/`can_delete`) is true; the row's actions cell
degenerates to the single neutral placeholder, with zero action links,
exactly when all three flags are false. -/
theorem action_links_match_permission_flags (p : PermissionsContext) :
    ((ActionLink.viewLink ∈ action_buttons (some p)) ↔ p.can_read = true)
      ∧ ((ActionLink.editLink ∈ action_buttons (some p)) ↔ p.can_update = true)
      ∧ ((ActionLink.deleteLink ∈ action_buttons (some p)) ↔ p.can_delete = true)
      ∧ (actions_cell (some p) = .noActionsPlaceholder
          ↔ p.can_read = false ∧ p.can_update = false ∧ p.can_delete = false)
      ∧ (p.can_read = false → p.can_update = false → p.can_delete = false →
          action_buttons (some p) = []) := by
  obtain ⟨c, r, u, d⟩ := p
  cases c <;> cases r <;> cases u <;> cases d <;> decide

/-- Witness for C5 at a concrete snapshot (read allowed, update and
delete denied). -/
theorem action_links_match_permission_flags_witness :
    ((ActionLink.viewLink ∈ action_buttons (some ⟨true, true, false, false⟩))
        ↔ (⟨true, true, false, false⟩ : PermissionsContext).can_read = true)
      ∧ ((ActionLink.editLink ∈ action_buttons (some ⟨true, true, false, false⟩))
          ↔ (⟨true, true, false, false⟩ : PermissionsContext).can_update = true)
      ∧ ((ActionLink.deleteLink ∈ action_buttons (some ⟨true, true, false, false⟩))
          ↔ (⟨true, true, false, false⟩ : PermissionsContext).can_delete = true)
      ∧ (actions_cell (some ⟨true, true, false, false⟩) = .noActionsPlaceholder
          ↔ (⟨true, true, false, false⟩ : PermissionsContext).can_read = false
              ∧ (⟨true, true, false, false⟩ : PermissionsContext).can_update = false
              ∧ (⟨true, true, false, false⟩ : PermissionsContext).can_delete = false)
      ∧ ((⟨true, true, false, false⟩ : PermissionsContext).can_read = false →
          (⟨true, true, false, false⟩ : PermissionsContext).can_update = false →
          (⟨true, true, false, false⟩ : PermissionsContext).can_delete = false →
          action_buttons (some ⟨true, true, false, false⟩) = []) :=
  action_links_match_permission_flags ⟨true, true, false, false⟩

/-- C6 (code evaluated at the failing input): for a boolean field named
`active_client` carrying the Yes/No choice set, an instance whose value
is `False` renders the tri-state select with NEITHER option selected —
the `field_value or ''` coercion in the bootstrap renderer turns `False`
into the empty string, so the `str(field_value) == "False"` test of the
"No" option never fires — while `True` does pre-select "Yes"; and the
same field without a choice set renders as a checkbox, not a select. -/
theorem active_client_false_preselects_nothing :
    render_form_field ⟨.BooleanField, [("True", "Yes"), ("False", "No")], "active_client"⟩
        (some (.pyBool false))
      = .selectActiveClient ⟨false, false⟩
    ∧ render_form_field ⟨.BooleanField, [("True", "Yes"), ("False", "No")], "active_client"⟩
        (some (.pyBool true))
      = .selectActiveClient ⟨true, false⟩
    ∧ render_form_field ⟨.BooleanField, [], "active_client"⟩ (some (.pyBool false))
      = .checkboxTag false := by
  refine ⟨rfl, rfl, rfl⟩

/-- C9 (counterexample): in `detail_view` a `None`-valued field is
rendered as "Not set", not as the claimed placeholder "-", and a field
whose read raises is dropped from the rendered output instead of being
rendered as "-". -/
theorem detail_view_null_renders_not_set :
    detail_fields_data [("note", .ok .vNone)] = [("note", "Not set")]
      ∧ ("Not set" : String) ≠ "-"
      ∧ detail_fields_data [("broken", .raiseErr)] = [] := by
  refine ⟨rfl, by decide, rfl⟩

/-- C9 (amended): list rendering formats datetimes as
`YYYY-MM-DD HH:MM`, booleans as Yes/No, null as "-", everything else
stringified, and a failing read as "-"; detail rendering formats
datetimes and booleans identically but renders null as "Not set" and
omits a failing field from its output altogether. -/
theorem field_value_formatting :
    list_cell (.ok (.vDateTime ⟨2024, 3, 15, 10, 30⟩)) = "2024-03-15 10:30"
      ∧ (∀ dt : PyDateTime, list_cell (.ok (.vDateTime dt)) = strftime_ymd_hm dt)
      ∧ (∀ b : Bool, list_cell (.ok (.vBool b)) = if b then "Yes" else "No")
      ∧ list_cell (.ok .vNone) = "-"
      ∧ (∀ s : String, list_cell (.ok (.vStr s)) = s)
      ∧ list_cell .raiseErr = "-"
      ∧ (∀ cells : List FieldRead, render_list_row cells = cells.map list_cell)
      ∧ (∀ dt : PyDateTime, format_detail_value (.vDateTime dt) = strftime_ymd_hm dt)
      ∧ (∀ b : Bool, format_detail_value (.vBool b) = if b then "Yes" else "No")
      ∧ format_detail_value .vNone = "Not set"
      ∧ (∀ (name : String) (rest : List (String × FieldRead)),
          detail_fields_data ((name, .raiseErr) :: rest) = detail_fields_data rest)
      ∧ (∀ (name : String) (v : FieldValue) (rest : List (String × FieldRead)),
          detail_fields_data ((name, .ok v) :: rest)
            = (name, format_detail_value v) :: detail_fields_data rest) := by
  refine ⟨by decide, fun dt => rfl, fun b => rfl, rfl, fun s => rfl, rfl,
    fun cells => rfl, fun dt => rfl, fun b => rfl, rfl,
    fun name rest => rfl, fun name v rest => rfl⟩

/-- Folding further conditions onto an already non-empty `Q` object ORs
them to the accumulated predicate. -/
theorem q_or_fold_acc (q : String) (l : List String) (p : SearchRec → Bool) :
    l.foldl
      (fun acc f =>
        match acc with
        | none => some (fun r => icontains (get_attr_str r f) q)
        | some pp => some (fun r => pp r || icontains (get_attr_str r f) q))
      (some p)
    = some (fun r => p r || l.any (fun f => icontains (get_attr_str r f) q)) := by
  induction l generalizing p with
  | nil => simp
  | cons f fs ih =>
      simp only [List.foldl_cons]
      rw [ih]
      congr 1
      funext r
      simp [List.any_cons, Bool.or_assoc]

/-- The `q_objects` fold over a non-empty field list produces the OR of
the per-field `icontains` tests. -/
theorem q_or_fold_eq (f0 : String) (fs : List String) (q : String) :
    q_or_fold (f0 :: fs) q
      = some (fun r => (f0 :: fs).any (fun f => icontains (get_attr_str r f) q)) := by
  unfold q_or_fold
  simp only [List.foldl_cons]
  rw [q_or_fold_acc]
  congr 1

/-- C4: with at least one search field and a non-empty query, the
filtered result of `render_list`'s search step holds exactly the records
in which SOME listed field case-insensitively contains the query
(OR across fields); a record matching no field is excluded. -/
theorem search_filter_or_semantics (search_fields : List String) (q : String)
    (records : List SearchRec) (r : SearchRec)
    (hf : search_fields ≠ []) (hq : q ≠ "") :
    r ∈ apply_search search_fields q records
      ↔ r ∈ records ∧ ∃ f ∈ search_fields, icontains (get_attr_str r f) q = true := by
  obtain ⟨f0, fs, rfl⟩ : ∃ f0 fs, search_fields = f0 :: fs := by
    cases search_fields with
    | nil => exact absurd rfl hf
    | cons a t => exact ⟨a, t, rfl⟩
  unfold apply_search
  rw [if_pos ⟨by simp, hq⟩, q_or_fold_eq]
  simp [filter_q, List.mem_filter, List.any_eq_true]

/-- Witness for C4 at a concrete input: the record whose `name` field
contains "ab" up to case is kept; the hypotheses hold for the field list
`["name"]` and the query "ab". -/
theorem search_filter_or_semantics_witness :
    ((["name"] : List String) ≠ [] ∧ ("ab" : String) ≠ "")
      ∧ ((⟨[("name", "xxAby")]⟩ : SearchRec)
            ∈ apply_search ["name"] "ab" [⟨[("name", "xxAby")]⟩, ⟨[("name", "zz")]⟩]
          ↔ (⟨[("name", "xxAby")]⟩ : SearchRec)
                ∈ [(⟨[("name", "xxAby")]⟩ : SearchRec), ⟨[("name", "zz")]⟩]
              ∧ ∃ f ∈ (["name"] : List String),
                  icontains (get_attr_str ⟨[("name", "xxAby")]⟩ f) "ab" = true) :=
  ⟨⟨by decide, by decide⟩,
    search_filter_or_semantics ["name"] "ab"
      [⟨[("name", "xxAby")]⟩, ⟨[("name", "zz")]⟩] ⟨[("name", "xxAby")]⟩
      (by decide) (by decide)⟩

/-- `num_pages` is at least 1 (Django's empty-first-page default). -/
theorem num_pages_pos (count per_page : Nat) (hpp : 0 < per_page) :
    1 ≤ num_pages count per_page := by
  unfold num_pages
  rw [Nat.le_div_iff_mul_le hpp]
  omega

/-- All records fit in `num_pages` pages. -/
theorem num_pages_mul_ge (count per_page : Nat) (hpp : 0 < per_page) :
    count ≤ num_pages count per_page * per_page := by
  unfold num_pages
  have hmod : (max 1 count + per_page - 1) % per_page < per_page :=
    Nat.mod_lt _ hpp
  have hdm := Nat.div_add_mod (max 1 count + per_page - 1) per_page
  rw [Nat.mul_comm]
  omega

/-- The pages before the last one do not cover all records. -/
theorem num_pages_pred_mul_lt (count per_page : Nat) (hpp : 0 < per_page) :
    (num_pages count per_page - 1) * per_page + 1 ≤ max 1 count := by
  unfold num_pages
  have hmod : (max 1 count + per_page - 1) % per_page < per_page :=
    Nat.mod_lt _ hpp
  have hdm := Nat.div_add_mod (max 1 count + per_page - 1) per_page
  rw [tsub_mul, one_mul, Nat.mul_comm]
  omega

/-- Splitting a list into `k` consecutive slices of width `per_page`
reassembles the list once `k` slices suffice. -/
theorem slices_join {α : Type} (per_page : Nat) :
    ∀ (k : Nat) (l : List α), l.length ≤ k * per_page →
      ((List.range k).map (fun i => (l.drop (i * per_page)).take per_page)).flatten = l := by
  intro k
  induction k with
  | zero =>
      intro l h
      simp only [Nat.zero_mul, Nat.le_zero, List.length_eq_zero] at h
      subst h
      simp
  | succ k ih =>
      intro l h
      rw [List.range_succ_eq_map]
      simp only [List.map_cons, List.flatten_cons, List.map_map, Function.comp_def,
        Nat.zero_mul, List.drop_zero]
      have hdrop : ∀ i : Nat,
          (l.drop ((i + 1) * per_page)).take per_page
            = ((l.drop per_page).drop (i * per_page)).take per_page := by
        intro i
        rw [List.drop_drop]
        congr 1
        ring_nf
      simp only [hdrop]
      rw [ih (l.drop per_page) (by simp only [List.length_drop]; rw [Nat.succ_mul] at h; omega)]
      exact List.take_append_drop per_page l

/-- A page slice's length. -/
theorem page_object_list_length {α : Type} (records : List α) (per_page n : Nat) :
    (page_object_list records per_page n).length
      = min per_page (records.length - (n - 1) * per_page) := by
  simp [page_object_list]

/-- C3 (counterexample): requesting page 0 with 30 records and
`per_page = 10` resolves to page 3 — the LAST page, not the nearest
valid boundary page 1 — and an empty collection is split into one
(empty) page, not `ceil(0/10) = 0` pages. -/
theorem page_zero_resolves_to_last_counterexample :
    num_pages 0 10 = 1
      ∧ get_page_number 30 10 0 = 3
      ∧ get_page_number 30 10 0 ≠ 1 := by
  refine ⟨rfl, rfl, by decide⟩

/-- C3 (amended): with `per_page ≥ 1`, `render_list`'s pagination splits
the records into `max(1, ceil(N / per_page))` consecutive pages (so an
empty collection yields one empty page), each holding `per_page` records
except the last which holds the remainder; a requested page inside
`[1, total]` is served as requested, and ANY out-of-range request —
page 0, negative, or beyond the total — resolves to the last page and
never errors. -/
theorem pagination_clamps_and_splits {α : Type} (per_page : Nat)
    (hpp : 0 < per_page) (records : List α) (number : Int) :
    num_pages records.length per_page
        = max 1 ((records.length + per_page - 1) / per_page)
      ∧ ((List.range (num_pages records.length per_page)).map
            (fun i => page_object_list records per_page (i + 1))).flatten = records
      ∧ (∀ i : Nat, i + 1 < num_pages records.length per_page →
          (page_object_list records per_page (i + 1)).length = per_page)
      ∧ (page_object_list records per_page (num_pages records.length per_page)).length
          = records.length - (num_pages records.length per_page - 1) * per_page
      ∧ (1 ≤ number → number ≤ (num_pages records.length per_page : Int) →
          get_page_number records.length per_page number = number.toNat)
      ∧ ((number < 1 ∨ (num_pages records.length per_page : Int) < number) →
          get_page_number records.length per_page number
            = num_pages records.length per_page) := by
  have hnp1 := num_pages_pos records.length per_page hpp
  have hcov := num_pages_mul_ge records.length per_page hpp
  have hpred := num_pages_pred_mul_lt records.length per_page hpp
  refine ⟨?_, ?_, ?_, ?_, ?_, ?_⟩
  · rcases Nat.eq_zero_or_pos records.length with h0 | hpos
    · rw [h0]
      unfold num_pages
      have h1 : max 1 0 + per_page - 1 = per_page := by omega
      have h2 : (0 + per_page - 1) / per_page = 0 := Nat.div_eq_of_lt (by omega)
      rw [h1, Nat.div_self hpp, h2]
      omega
    · have hx : max 1 records.length = records.length := by omega
      unfold num_pages
      rw [hx]
      have h1 : 1 ≤ (records.length + per_page - 1) / per_page := by
        rw [Nat.le_div_iff_mul_le hpp]
        omega
      omega
  · have heq : ∀ i : Nat,
        page_object_list records per_page (i + 1)
          = (records.drop (i * per_page)).take per_page := by
      intro i
      simp [page_object_list]
    simp only [heq]
    exact slices_join per_page (num_pages records.length per_page) records hcov
  · intro i hi
    rw [page_object_list_length]
    simp only [Nat.add_sub_cancel]
    have hmul : (i + 1) * per_page ≤ (num_pages records.length per_page - 1) * per_page :=
      Nat.mul_le_mul_right per_page (by omega)
    rw [Nat.succ_mul] at hmul
    omega
  · rw [page_object_list_length]
    have : (num_pages records.length per_page - 1) * per_page
        = num_pages records.length per_page * per_page - per_page := by
      rw [tsub_mul, one_mul]
    omega
  · intro h1 h2
    unfold get_page_number validate_number
    rw [if_neg (by omega), if_neg (by omega)]
  · intro hcase
    rcases hcase with h | h
    · unfold get_page_number validate_number
      rw [if_pos h]
    · unfold get_page_number validate_number
      rw [if_neg (by omega), if_pos (by omega),
        if_neg (by simp only [beq_iff_eq]; omega)]

/-- Witness for C3 at the spec scenario: 30 records, `per_page = 10`,
requested page 4 resolves to the last page (3). -/
theorem pagination_clamps_and_splits_witness :
    0 < 10
      ∧ (num_pages (List.range 30).length 10
            = max 1 (((List.range 30).length + 10 - 1) / 10)
          ∧ ((List.range (num_pages (List.range 30).length 10)).map
                (fun i => page_object_list (List.range 30) 10 (i + 1))).flatten
              = List.range 30
          ∧ (∀ i : Nat, i + 1 < num_pages (List.range 30).length 10 →
              (page_object_list (List.range 30) 10 (i + 1)).length = 10)
          ∧ (page_object_list (List.range 30) 10 (num_pages (List.range 30).length 10)).length
              = (List.range 30).length - (num_pages (List.range 30).length 10 - 1) * 10
          ∧ (1 ≤ (4 : Int) → (4 : Int) ≤ (num_pages (List.range 30).length 10 : Int) →
              get_page_number (List.range 30).length 10 4 = (4 : Int).toNat)
          ∧ (((4 : Int) < 1 ∨ (num_pages (List.range 30).length 10 : Int) < 4) →
              get_page_number (List.range 30).length 10 4
                = num_pages (List.range 30).length 10)) :=
  ⟨by decide, pagination_clamps_and_splits 10 (by decide) (List.range 30) 4⟩

end Cruder
